import Mathlib

/-!
Verification of the box-score extraction-and-analytics pipeline
(`datawrapper.py`) against its natural-language specification.

Strings are modelled as `List Char` (`Str`), HTML documents as a mutual
inductive `Node`/`Forest` tree in which a comment node carries the parse
of its text content, and pandas DataFrames as a header list paired with
a list of rows of optional cell values (`none` models NaN/null).
-/

abbrev Str := List Char

def strL (s : String) : Str := s.data

/-! ## Python string primitives -/

/-- Whitespace characters recognised by Python `str.strip()` that occur in
this pipeline: ASCII whitespace and the no-break space U+00A0 (which Python
treats as whitespace, so `"\xa0".strip() == ""`). -/
def isPySpace (c : Char) : Bool :=
  c == ' ' || c == '\t' || c == '\n' || c == '\r' ||
  c == '\u000B' || c == '\u000C' || c == '\u00A0'

/-- Python `str.strip()`. -/
def pyStrip (s : Str) : Str :=
  ((s.dropWhile isPySpace).reverse.dropWhile isPySpace).reverse

/-- Python `str.split('-')`. -/
def splitDash : Str → List Str
  | [] => [[]]
  | c :: rest =>
    if c = '-' then [] :: splitDash rest
    else
      match splitDash rest with
      | [] => [[c]]
      | p :: ps => (c :: p) :: ps

/-- Numeric value of a digit string, most significant digit first. -/
def digitsToNat (s : Str) : Nat :=
  s.foldl (fun a c => a * 10 + (c.toNat - 48)) 0

/-- Parse an unsigned decimal literal (digits, optionally followed by a
point and further digits) as a rational, built with `Rat.divInt`. -/
def parseUnsigned (s : Str) : Option Rat :=
  match s.dropWhile Char.isDigit with
  | [] =>
    if s.takeWhile Char.isDigit = [] then none
    else some (Rat.divInt (digitsToNat (s.takeWhile Char.isDigit)) 1)
  | '.' :: fp =>
    if fp.all Char.isDigit ∧ (s.takeWhile Char.isDigit ≠ [] ∨ fp ≠ []) then
      some (Rat.divInt
        (digitsToNat (s.takeWhile Char.isDigit) * 10 ^ fp.length + digitsToNat fp)
        (10 ^ fp.length))
    else none
  | _ => none

/-- Scalar model of `pd.to_numeric(·, errors="coerce")` on the decimal
literals this pipeline produces: an optionally signed decimal literal
parses to its value, anything else to `none` (pandas NaN). -/
def pyToNumeric (s : Str) : Option Rat :=
  match s with
  | '-' :: rest => (parseUnsigned rest).map (fun q => -q)
  | '+' :: rest => parseUnsigned rest
  | _ => parseUnsigned s

/-- `pd.to_numeric(·, errors="coerce").fillna(0)` on one cell. -/
def toNum0 (s : Str) : Rat := (pyToNumeric s).getD 0

/-! ## Document model

An HTML document is a forest of nodes. An element carries its tag name,
optional `id` attribute, class list, and children. A comment node carries
the forest obtained by re-parsing its text content (matching how
`find_element_in_soup` re-parses each comment with `BeautifulSoup`).
BeautifulSoup searches (`find`, `find_all`, `select`) traverse elements in
document (pre-)order and do not descend into comment nodes; bs4 `Tag`
objects define `__bool__` as constantly true, so the code's truthiness
checks on find results are modelled as `Option` presence. -/

mutual
inductive Node : Type where
  | elem : Str → Option Str → List Str → Forest → Node
  | text : Str → Node
  | comment : Forest → Node
inductive Forest : Type where
  | nil : Forest
  | cons : Node → Forest → Forest
end

def Node.childrenF : Node → Forest
  | .elem _ _ _ cs => cs
  | _ => .nil

/-! `soup.find(tag, id=i)` on a node / forest: first matching element in
document order, comments not entered. -/
mutual

def findNode (tag i : Str) (n : Node) : Option Node :=
  match n with
  | .elem t oid cls cs =>
    if t = tag ∧ oid = some i then some (.elem t oid cls cs)
    else findForest tag i cs
  | .text _ => none
  | .comment _ => none

def findForest (tag i : Str) (f : Forest) : Option Node :=
  match f with
  | .nil => none
  | .cons n rest =>
    match findNode tag i n with
    | some e => some e
    | none => findForest tag i rest
end

/-! `find_all` restricted to a set of tag names: all matching elements in
document order, comments not entered, the root of a subtree included. -/
mutual

def allTagsN (tags : List Str) (n : Node) : List Node :=
  match n with
  | .elem t oid cls cs =>
    (if tags.contains t then [Node.elem t oid cls cs] else []) ++ allTagsF tags cs
  | .text _ => []
  | .comment _ => []

def allTagsF (tags : List Str) (f : Forest) : List Node :=
  match f with
  | .nil => []
  | .cons n rest => allTagsN tags n ++ allTagsF tags rest
end

/-! `get_text()`: concatenation of all text leaves below a node. -/
mutual

def getTextN (n : Node) : Str :=
  match n with
  | .elem _ _ _ cs => getTextF cs
  | .text s => s
  | .comment _ => []

def getTextF (f : Forest) : Str :=
  match f with
  | .nil => []
  | .cons n rest => getTextN n ++ getTextF rest
end

/-! `soup.find_all(string=lambda t: isinstance(t, Comment))`, each comment
given by the forest its text re-parses to, in document order. -/
mutual

def commentsN (n : Node) : List Forest :=
  match n with
  | .elem _ _ _ cs => commentsF cs
  | .text _ => []
  | .comment c => [c]

def commentsF (f : Forest) : List Forest :=
  match f with
  | .nil => []
  | .cons n rest => commentsN n ++ commentsF rest
end

/-- The loop over comments in `find_element_in_soup`: re-parse each comment
in document order and stop at the first one whose fragment contains a
match. -/
def firstCommentFind (tag i : Str) : List Forest → Option Node
  | [] => none
  | c :: rest =>
    match findForest tag i c with
    | some e => some e
    | none => firstCommentFind tag i rest

/-- `find_element_in_soup(soup, element_type, element_id)`: search the live
tree first, then the comment fragments. -/
def find_element_in_soup (soup : Forest) (tag i : Str) : Option Node :=
  match findForest tag i soup with
  | some e => some e
  | none => firstCommentFind tag i (commentsF soup)

/-! ## Table access helpers -/

/-- Rows of the table's header section:
`thead = table.find('thead')` followed by `thead.find_all('tr')`;
an absent `thead` yields no rows (the code then leaves `headers` empty). -/
def theadRows (table : Node) : List Node :=
  match (allTagsF [strL "thead"] table.childrenF).head? with
  | some th => allTagsF [strL "tr"] th.childrenF
  | none => []

/-- `row.find_all(['th', 'td'])`. -/
def cellsOfRow (r : Node) : List Node :=
  allTagsF [strL "th", strL "td"] r.childrenF

/-- `[cell.get_text().strip() for cell in row.find_all(['th', 'td'])]`. -/
def cellTexts (r : Node) : List Str :=
  (cellsOfRow r).map (fun c => pyStrip (getTextN c))

/-- `table.select('tbody tr')`: the `tr` descendants of each `tbody`
descendant of the table. -/
def tbodyRowsAll (table : Node) : List Node :=
  (allTagsF [strL "tbody"] table.childrenF).flatMap
    (fun tb => allTagsF [strL "tr"] tb.childrenF)

def hasClass (n : Node) (cl : Str) : Bool :=
  match n with
  | .elem _ _ cls _ => cls.contains cl
  | _ => false

/-- Whether a cell's markup name is `th` (`row_cells[0].name == 'th'`). -/
def isThCell (n : Node) : Bool :=
  match n with
  | .elem t _ _ _ => t == strL "th"
  | _ => false

/-! ## pandas DataFrame construction

`pd.DataFrame(data, columns=headers)` on a list of row lists: rows shorter
than the widest row are right-padded with NaN (modelled as `none`); if the
widest row's length differs from the number of column labels, pandas
raises `ValueError`, which the scrapers catch, returning `None`. -/

def maxWidth (data : List (List α)) : Nat :=
  data.foldr (fun r m => max r.length m) 0

def padRowTo (w : Nat) (r : List (Option Str)) : List (Option Str) :=
  r ++ List.replicate (w - r.length) none

def pdDataFrame (hs : List Str) (data : List (List (Option Str))) :
    Option (List Str × List (List (Option Str))) :=
  if maxWidth data = hs.length then
    some (hs, data.map (padRowTo hs.length))
  else none

/-! ## Line-Score Extractor (`scrape_line_score`) -/

/-- Header labels: the second `tr` of the header section
(`select_one('thead tr:nth-of-type(2)')`), each cell's text stripped, and
any cell equal to the one-character no-break-space string renamed to
`"Team"`; an absent second header row leaves the header list empty. -/
def lineScoreHeaders (table : Node) : List Str :=
  match (theadRows table).get? 1 with
  | some hr => (cellTexts hr).map (fun h => if h = ['\u00A0'] then strL "Team" else h)
  | none => []

def scrape_line_score (soup : Forest) :
    Option (List Str × List (List (Option Str))) :=
  match find_element_in_soup soup (strL "table") (strL "line_score") with
  | none => none
  | some table =>
    if lineScoreHeaders table = [] ∨ (tbodyRowsAll table).map cellTexts = [] then
      none
    else
      pdDataFrame (lineScoreHeaders table)
        (((tbodyRowsAll table).map cellTexts).map (List.map some))

/-! ## Team-Stats Extractor (`scrape_team_basic_stats`) -/

def teamDivId (team : Str) : Str :=
  strL "div_box-" ++ team ++ strL "-game-basic"

def teamTableId (team : Str) : Str :=
  strL "box-" ++ team ++ strL "-game-basic"

/-- Header selection: the first header-section row whose stripped cell
texts contain the minutes-played marker `"MP"`. -/
def selectStatsHeaders (table : Node) : Option (List Str) :=
  (theadRows table).findSome? (fun r =>
    if strL "MP" ∈ cellTexts r then some (cellTexts r) else none)

/-- One body row: skipped (`none`) when it has no cells, or its first
cell's stripped text is empty, or its first cell is not a `th` cell;
otherwise its stripped cell texts. -/
def statsRowData (r : Node) : Option (List Str) :=
  match (cellsOfRow r).head? with
  | none => none
  | some c0 =>
    if pyStrip (getTextN c0) = [] ∨ isThCell c0 = false then none
    else some (cellTexts r)

/-- `tbody tr:not(.thead)` rows filtered by the row skip policy; if the
table has no `tbody` there are no data rows. -/
def statsBodyData (table : Node) : List (List Str) :=
  match (allTagsF [strL "tbody"] table.childrenF).head? with
  | none => []
  | some _ =>
    ((tbodyRowsAll table).filter
      (fun r => !(hasClass r (strL "thead")))).filterMap statsRowData

def scrape_team_basic_stats (soup : Forest) (team : Str) :
    Option (List Str × List (List (Option Str))) :=
  match find_element_in_soup soup (strL "div") (teamDivId team) with
  | none => none
  | some container =>
    match findForest (strL "table") (teamTableId team) container.childrenF with
    | none => none
    | some table =>
      match selectStatsHeaders table with
      | none => none
      | some headers =>
        if statsBodyData table = [] then none
        else
          pdDataFrame headers
            ((statsBodyData table).map
              (fun r => padRowTo headers.length (r.map some)))

/-! ## Play-by-Play Extractor (`scrape_play_by_play`)

Network fetch and URL derivation are outside the embedding; the extractor
is modelled from the point where the fetched document's `pbp` table is
looked up. -/

def naL : Str := strL "N/A"

/-- Score-text handling for one surviving row: a text that is nonempty and
contains `-`, and splits on `-` into exactly two parts, yields the two
stripped parts; anything else yields the `"N/A"` sentinel pair. -/
def parseScorePair (score : Str) : Str × Str :=
  if score ≠ [] ∧ '-' ∈ score then
    match splitDash score with
    | [a, b] => (pyStrip a, pyStrip b)
    | _ => (naL, naL)
  else (naL, naL)

/-- Stripped text of the cell at index `k`, empty when absent. -/
def cellTextAt (cells : List Node) (k : Nat) : Str :=
  match cells.get? k with
  | some c => pyStrip (getTextN c)
  | none => []

/-- One play-by-play row: `none` (skipped) when the row has fewer than 5
cells or both the 3rd and 5th cells' stripped texts are empty; otherwise
the home/away score strings parsed from the 4th cell. -/
def processPbpRow (r : Node) : Option (Str × Str) :=
  if 5 ≤ (cellsOfRow r).length then
    if cellTextAt (cellsOfRow r) 2 = [] ∧ cellTextAt (cellsOfRow r) 4 = [] then
      none
    else some (parseScorePair (cellTextAt (cellsOfRow r) 3))
  else none

/-- The `for row in all_trs[2:]` loop, appending each emitted pair to
`data`. -/
def pbpLoop (rows : List Node) (acc : List (Str × Str)) : List (Str × Str) :=
  match rows with
  | [] => acc
  | r :: rest =>
    match processPbpRow r with
    | none => pbpLoop rest acc
    | some p => pbpLoop rest (acc ++ [p])

def pbpStrData (rows : List Node) : List (Str × Str) := pbpLoop rows []

/-- `pd.to_numeric(col, errors="coerce").fillna(0)` applied to both score
columns of the extracted rows. -/
def pbpNumData (rows : List Node) : List (Rat × Rat) :=
  (pbpStrData rows).map (fun p => (toNum0 p.1, toNum0 p.2))

/-- The part of `scrape_play_by_play` from `all_trs` on: require at least
3 rows, process rows from the 3rd onward, and return the numeric frame
unless no row survived. -/
def pbpFromRows (allTrs : List Node) : Option (List (Rat × Rat)) :=
  if 3 ≤ allTrs.length then
    if pbpStrData (allTrs.drop 2) = [] then none
    else some (pbpNumData (allTrs.drop 2))
  else none

def scrape_play_by_play (soup : Forest) : Option (List (Rat × Rat)) :=
  match find_element_in_soup soup (strL "table") (strL "pbp") with
  | none => none
  | some table => pbpFromRows (allTagsF [strL "tr"] table.childrenF)

/-! ## Analytics: Top Scorers (`main`, lines 487-525)

Input: the combined per-team projections `[Player, PTS, Team]`
(`all_player_stats` concatenated in team order); the list is empty exactly
when no team contributed. After coercing `PTS` and sorting, line 515 of
the source reads the name `sorted_players_top_scorers`, but line 513 bound
the sorted frame as `sorted_players_df_top_scorers`; the read therefore
raises `NameError`, modelled as the `Except.error` outcome. -/

structure TSRec where
  player : Str
  pts : Str
  team : Str
deriving DecidableEq

def insertPtsDesc (x : Str × Rat × Str) :
    List (Str × Rat × Str) → List (Str × Rat × Str)
  | [] => [x]
  | y :: ys => if y.2.1 < x.2.1 then x :: y :: ys else y :: insertPtsDesc x ys

/-- `sort_values(by='PTS', ascending=False)`. -/
def sortPtsDesc (l : List (Str × Rat × Str)) : List (Str × Rat × Str) :=
  l.foldr insertPtsDesc []

def nameErrorMsg : Str :=
  strL "NameError: name sorted_players_top_scorers is not defined"

def topScorersCode (recs : List TSRec) : Except Str (List (Str × Rat × Str)) :=
  if recs = [] then .ok []
  else
    let _sorted :=
      sortPtsDesc (recs.map (fun r => (r.player, toNum0 r.pts, r.team)))
    .error nameErrorMsg

/-! ## Analytics: Player of the Game (`main`, lines 527-562)

Inputs: for each team, the rows of its stats table restricted to the seven
columns `[Starters, GmSc, TRB, AST, STL, BLK, PTS]` (empty when the team
contributed nothing). Line 543 of the source overwrites team 2's
seven-column projection with `team2_players_top_scorers` — the three-column
`[Player, PTS, Team]` frame from the Top Scorers section — so after
`pd.concat` team 2's rows have NaN in `GmSc`/`TRB`/`AST`/`STL`/`BLK`,
and `fillna(0)` turns every team-2 game score into 0. With no team-1 rows
the concatenated frame has no `GmSc` column at all and reading it raises
`KeyError`. -/

structure PogRec where
  player : Str
  gmsc : Str
  trb : Str
  ast : Str
  stl : Str
  blk : Str
  pts : Str
deriving DecidableEq

/-- A row of the concatenated candidate frame after the `GmSc` coercion,
projected to the displayed columns; `none` models NaN from the column
union in `pd.concat`. -/
structure PogEntry where
  player : Str
  gmscN : Rat
  trb : Option Str
  ast : Option Str
  stl : Option Str
  blk : Option Str
  pts : Option Str
deriving DecidableEq

/-- `idxmax` followed by `loc`: the first row attaining the maximum
`GmSc`. -/
def pogSelect (entries : List PogEntry) : Option PogEntry :=
  match entries with
  | [] => none
  | e :: es =>
    some (es.foldl (fun best x => if best.gmscN < x.gmscN then x else best) e)

def keyErrorMsg : Str := strL "KeyError: GmSc"

def pogCode (t1 t2 : List PogRec) : Except Str (Option PogEntry) :=
  if t1 = [] ∧ t2 = [] then .ok none
  else if t1 = [] then .error keyErrorMsg
  else
    .ok (pogSelect
      ((t1.map (fun r => PogEntry.mk r.player (toNum0 r.gmsc)
          (some r.trb) (some r.ast) (some r.stl) (some r.blk) (some r.pts))) ++
       (t2.map (fun r => PogEntry.mk r.player 0
          none none none none (some r.pts)))))

def pbpShortRow : Node := .elem (strL "tr") none [] .nil

def pbpNaRow : Node :=
  .elem (strL "tr") none []
    (.cons (.elem (strL "td") none [] (.cons (.text (strL "9:59.0")) .nil))
    (.cons (.elem (strL "td") none [] (.cons (.text (strL "Jump ball")) .nil))
    (.cons (.elem (strL "td") none [] (.cons (.text (strL "+2")) .nil))
    (.cons (.elem (strL "td") none [] (.cons (.text (strL "N/A")) .nil))
    (.cons (.elem (strL "td") none [] .nil) .nil)))))

def commentDemoInner : Forest :=
  .cons (.elem (strL "table") (some (strL "line_score")) []
    (.cons (.text (strL "AAA")) .nil)) .nil

def cellTh (s : String) : Node :=
  .elem (strL "th") none [] (.cons (.text (strL s)) .nil)

def cellTd (s : String) : Node :=
  .elem (strL "td") none [] (.cons (.text (strL s)) .nil)

def rowOf (cells : Forest) : Node := .elem (strL "tr") none [] cells

/-- A team-stats document for team `AAA`: a decorative grouping header row,
the real header row (containing `MP`), a full body row, and a body row one
cell short. -/
def statsDemoDoc : Forest :=
  .cons (.elem (strL "div") (some (strL "div_box-AAA-game-basic")) []
    (.cons (.elem (strL "table") (some (strL "box-AAA-game-basic")) []
      (.cons (.elem (strL "thead") none []
        (.cons (rowOf (.cons (cellTh "Basic Box Score Stats") .nil))
        (.cons (rowOf (.cons (cellTh "Starters")
                      (.cons (cellTh "MP") (.cons (cellTh "PTS") .nil))))
          .nil)))
      (.cons (.elem (strL "tbody") none []
        (.cons (rowOf (.cons (cellTh "Alice")
                      (.cons (cellTd "30") (.cons (cellTd "20") .nil))))
        (.cons (rowOf (.cons (cellTh "Bob") (.cons (cellTd "12") .nil)))
          .nil)))
        .nil)))
      .nil))
    .nil

/-! ## Claims C3, C4 -/

/-- A line-score document whose second header row starts with a cell whose
text is the non-breaking-space character. -/
def lineScoreNbspDoc : Forest :=
  .cons (.elem (strL "table") (some (strL "line_score")) []
    (.cons (.elem (strL "thead") none []
      (.cons (rowOf (.cons (cellTh "") .nil))
      (.cons (rowOf (.cons (.elem (strL "th") none []
                       (.cons (.text ['\u00A0']) .nil))
                    (.cons (cellTh "T") .nil)))
        .nil)))
    (.cons (.elem (strL "tbody") none []
      (.cons (rowOf (.cons (cellTh "AAA") (.cons (cellTd "100") .nil)))
      (.cons (rowOf (.cons (cellTh "BBB") (.cons (cellTd "90") .nil)))
        .nil)))
      .nil)))
    .nil

/-- A line-score document with a single body row. -/
def lineScoreOneRowDoc : Forest :=
  .cons (.elem (strL "table") (some (strL "line_score")) []
    (.cons (.elem (strL "thead") none []
      (.cons (rowOf (.cons (cellTh "") .nil))
      (.cons (rowOf (.cons (cellTh "Team") (.cons (cellTh "T") .nil)))
        .nil)))
    (.cons (.elem (strL "tbody") none []
      (.cons (rowOf (.cons (cellTh "AAA") (.cons (cellTd "100") .nil)))
        .nil))
      .nil)))
    .nil

def pogT1Demo : List PogRec :=
  [PogRec.mk (strL "Alice") (strL "10.0") (strL "5") (strL "3") (strL "1")
    (strL "0") (strL "20")]

def pogT2Demo : List PogRec :=
  [PogRec.mk (strL "Bob") (strL "25.5") (strL "8") (strL "4") (strL "2")
    (strL "1") (strL "30")]

/-! ## Theorems -/

theorem splitDash_ne_nil (s : Str) : splitDash s ≠ [] := by
  induction s with
  | nil => simp [splitDash]
  | cons c rest ih =>
    simp only [splitDash]
    split
    · simp
    · split
      · simp
      · simp

theorem splitDash_length (s : Str) :
    (splitDash s).length = s.count '-' + 1 := by
  induction s with
  | nil => simp [splitDash]
  | cons c rest ih =>
    simp only [splitDash]
    by_cases hc : c = '-'
    · subst hc
      simp [List.count_cons, ih]
    · rw [if_neg hc]
      rcases hsp : splitDash rest with _ | ⟨p, ps⟩
      · exact absurd hsp (splitDash_ne_nil rest)
      · have : rest.count '-' + 1 = (p :: ps).length := by rw [← hsp, ih]
        simp only [List.length_cons] at this
        simp [List.count_cons, hc, ← this]

theorem toNum0_of_fail (s : Str) (h : pyToNumeric s = none) : toNum0 s = 0 := by
  simp [toNum0, h]

example : toNum0 (strL "20.5") = Rat.divInt 41 2 := by decide

example : toNum0 (strL "-7") = Rat.divInt (-7) 1 := by decide

example : toNum0 (strL "30") = 30 := by decide

example : toNum0 (strL "N/A") = 0 := by decide

example : pyStrip (strL " ab ") = strL "ab" := by decide

example : pyStrip [' ', '\u00A0'] = [] := by decide

example : splitDash (strL "12-34") = [strL "12", strL "34"] := by decide

example : splitDash (strL "a-b-c") = [strL "a", strL "b", strL "c"] := by decide

theorem firstCommentFind_eq_none (tag i : Str) (l : List Forest)
    (h : ∀ c ∈ l, findForest tag i c = none) :
    firstCommentFind tag i l = none := by
  induction l with
  | nil => rfl
  | cons c rest ih =>
    rw [firstCommentFind, h c (List.mem_cons_self c rest)]
    exact ih (fun x hx => h x (List.mem_cons_of_mem c hx))

theorem mem_le_maxWidth {data : List (List α)} {r : List α} (h : r ∈ data) :
    r.length ≤ maxWidth data := by
  induction data with
  | nil => cases h
  | cons d rest ih =>
    rcases List.mem_cons.mp h with rfl | h
    · exact le_max_left _ _
    · exact le_trans (ih h) (le_max_right _ _)

theorem pdDataFrame_eq_some {hs hs2 : List Str}
    {data : List (List (Option Str))} {rows : List (List (Option Str))}
    (h : pdDataFrame hs data = some (hs2, rows)) :
    hs2 = hs ∧ rows = data.map (padRowTo hs.length) ∧
      ∀ r ∈ rows, r.length = hs.length := by
  unfold pdDataFrame at h
  split at h
  case isFalse => cases h
  case isTrue hw =>
    rw [Option.some.injEq, Prod.mk.injEq] at h
    obtain ⟨h1, h2⟩ := h
    refine ⟨h1.symm, h2.symm, ?_⟩
    intro r hr
    rw [← h2] at hr
    rcases List.mem_map.mp hr with ⟨d, hd, rfl⟩
    have hle : d.length ≤ hs.length := hw ▸ mem_le_maxWidth hd
    simp [padRowTo]
    omega

/-! ## Play-by-Play lemmas -/

theorem pbpLoop_eq_filterMap (rows : List Node) (acc : List (Str × Str)) :
    pbpLoop rows acc = acc ++ rows.filterMap processPbpRow := by
  induction rows generalizing acc with
  | nil => simp [pbpLoop]
  | cons r rest ih =>
    rw [pbpLoop]
    cases h : processPbpRow r with
    | none => simp [h, ih, List.filterMap_cons]
    | some p => simp [h, ih, List.filterMap_cons]

theorem parseScorePair_two (s a b : Str) (h : splitDash s = [a, b]) :
    parseScorePair s = (pyStrip a, pyStrip b) := by
  have hlen : ([a, b] : List Str).length = s.count '-' + 1 := by
    rw [← h]; exact splitDash_length s
  simp only [List.length_cons, List.length_nil] at hlen
  have hne : s ≠ [] := by
    intro he; subst he
    simp [splitDash] at h
  have hmem : '-' ∈ s := List.count_pos_iff.mp (by omega)
  unfold parseScorePair
  rw [if_pos ⟨hne, hmem⟩, h]

theorem parseScorePair_not_single (s : Str) (h : s.count '-' ≠ 1) :
    parseScorePair s = (naL, naL) := by
  unfold parseScorePair
  split
  case isTrue hcond =>
    rcases hsp : splitDash s with _ | ⟨a, _ | ⟨b, _ | ⟨c, t⟩⟩⟩
    · rfl
    · rfl
    · exfalso
      have hlen : ([a, b] : List Str).length = s.count '-' + 1 := by
        rw [← hsp]; exact splitDash_length s
      simp only [List.length_cons, List.length_nil] at hlen
      omega
    · rfl
  case isFalse => rfl

theorem processPbpRow_emit (r : Node) (h5 : 5 ≤ (cellsOfRow r).length)
    (hne : ¬(cellTextAt (cellsOfRow r) 2 = [] ∧ cellTextAt (cellsOfRow r) 4 = [])) :
    processPbpRow r = some (parseScorePair (cellTextAt (cellsOfRow r) 3)) := by
  unfold processPbpRow
  rw [if_pos h5, if_neg hne]

/-! ## Claims C5, C6, C10 -/

/-- Claim C5: the Play-by-Play extractor always drops the first two rows
regardless of their content; any later row with fewer than 5 cells, or
with empty stripped text in both its 3rd and 5th cells (whatever the 4th
cell holds), is skipped without emitting a point or consuming an index;
and the emitted points are exactly the compacted `filterMap` of the
surviving rows, so their positions are consecutive from 0 with no gaps. -/
theorem pbp_skip_policy :
    (∀ r1 r2 r1' r2' rest,
      pbpFromRows (r1 :: r2 :: rest) = pbpFromRows (r1' :: r2' :: rest)) ∧
    (∀ r : Node,
      (cellsOfRow r).length < 5 ∨
        (cellTextAt (cellsOfRow r) 2 = [] ∧ cellTextAt (cellsOfRow r) 4 = []) →
      processPbpRow r = none) ∧
    (∀ rows : List Node, pbpStrData rows = rows.filterMap processPbpRow) := by
  refine ⟨?_, ?_, ?_⟩
  · intro r1 r2 r1' r2' rest; rfl
  · intro r h
    unfold processPbpRow
    rcases h with h | h
    · rw [if_neg (by omega)]
    · by_cases h5 : 5 ≤ (cellsOfRow r).length
      · rw [if_pos h5, if_pos h]
      · rw [if_neg h5]
  · intro rows
    simpa using pbpLoop_eq_filterMap rows []

theorem pbp_skip_policy_witness : processPbpRow pbpShortRow = none :=
  pbp_skip_policy.2.1 pbpShortRow (Or.inl (by decide))

/-- Claim C6: for a surviving row, score text that splits on `-` into
exactly two parts (equivalently, by the length identity, contains exactly
one `-`) is recorded as the stripped home/away pair; any other score text
yields the `"N/A"` sentinel pair; and in both cases the row is still
emitted — malformed score text never skips the row or fails the
extraction. -/
theorem pbp_score_parsing :
    (∀ s a b, splitDash s = [a, b] → parseScorePair s = (pyStrip a, pyStrip b)) ∧
    (∀ s, (splitDash s).length = s.count '-' + 1) ∧
    (∀ s, s.count '-' ≠ 1 → parseScorePair s = (naL, naL)) ∧
    (∀ r : Node, 5 ≤ (cellsOfRow r).length →
      ¬(cellTextAt (cellsOfRow r) 2 = [] ∧ cellTextAt (cellsOfRow r) 4 = []) →
      processPbpRow r = some (parseScorePair (cellTextAt (cellsOfRow r) 3))) :=
  ⟨parseScorePair_two, splitDash_length, parseScorePair_not_single,
    processPbpRow_emit⟩

theorem pbp_score_parsing_witness : parseScorePair (strL "N/A") = (naL, naL) :=
  pbp_score_parsing.2.2.1 (strL "N/A") (by decide)

/-- Claim C10: both output columns of the margin series are rationals;
any score string that fails numeric parsing — in particular the `"N/A"`
sentinel recorded for malformed score text — becomes 0 in the final
output, and every successful extraction result is the numeric image of
the string-stage data, so the sentinel itself is never observable. -/
theorem pbp_numeric_output :
    (∀ s, pyToNumeric s = none → toNum0 s = 0) ∧
    (pyToNumeric naL = none ∧ toNum0 naL = 0) ∧
    (∀ r : Node, 5 ≤ (cellsOfRow r).length →
      ¬(cellTextAt (cellsOfRow r) 2 = [] ∧ cellTextAt (cellsOfRow r) 4 = []) →
      (cellTextAt (cellsOfRow r) 3).count '-' ≠ 1 →
      (processPbpRow r).map (fun p => (toNum0 p.1, toNum0 p.2)) =
        some ((0 : Rat), (0 : Rat))) ∧
    (∀ allTrs res, pbpFromRows allTrs = some res →
      res = pbpNumData (allTrs.drop 2)) := by
  refine ⟨toNum0_of_fail, ⟨by decide, by decide⟩, ?_, ?_⟩
  · intro r h5 hne hcount
    rw [processPbpRow_emit r h5 hne, parseScorePair_not_single _ hcount]
    show some (toNum0 naL, toNum0 naL) = some ((0 : Rat), (0 : Rat))
    decide
  · intro allTrs res h
    unfold pbpFromRows at h
    split at h
    · split at h
      · cases h
      · exact (Option.some.inj h).symm
    · cases h

theorem pbp_numeric_output_witness :
    (processPbpRow pbpNaRow).map (fun p => (toNum0 p.1, toNum0 p.2)) =
      some ((0 : Rat), (0 : Rat)) :=
  pbp_numeric_output.2.2.1 pbpNaRow (by decide) (by decide) (by decide)

/-! ## Claims C8, C9, C7 -/

/-- Claim C8: the Element Locator returns a live-tree match when one
exists; a document consisting of a single comment wrapping a
comment-free fragment is searched exactly as if the fragment stood
directly in the tree (comment transparency, structural equality of the
results); and when neither the live tree nor any comment fragment
contains a match the result is `none` — the locator is a total function
and never throws. -/
theorem find_element_in_soup_contract :
    (∀ tag i soup e, findForest tag i soup = some e →
      find_element_in_soup soup tag i = some e) ∧
    (∀ tag i f, commentsF f = [] →
      find_element_in_soup (.cons (.comment f) .nil) tag i =
        find_element_in_soup f tag i) ∧
    (∀ tag i soup, findForest tag i soup = none →
      (∀ c ∈ commentsF soup, findForest tag i c = none) →
      find_element_in_soup soup tag i = none) := by
  refine ⟨?_, ?_, ?_⟩
  · intro tag i soup e h
    unfold find_element_in_soup
    rw [h]
  · intro tag i f hc
    unfold find_element_in_soup
    have h1 : findForest tag i (.cons (.comment f) .nil) = none := rfl
    have h2 : commentsF (.cons (.comment f) .nil) = [f] := by
      simp [commentsF, commentsN]
    rw [h1, h2, hc]
    cases hf : findForest tag i f <;> simp [firstCommentFind, hf]
  · intro tag i soup h hall
    unfold find_element_in_soup
    rw [h]
    exact firstCommentFind_eq_none tag i _ hall

theorem find_element_in_soup_contract_witness :
    find_element_in_soup (.cons (.comment commentDemoInner) .nil)
        (strL "table") (strL "line_score") =
      find_element_in_soup commentDemoInner (strL "table") (strL "line_score") :=
  find_element_in_soup_contract.2.1 (strL "table") (strL "line_score")
    commentDemoInner rfl

/-- Claim C9: if the Locator does not find the team's container `div`,
the Team-Stats extraction is `none` (by the match structure of
`scrape_team_basic_stats`, the nested table lookup is never reached); and
if the container and table are found but no header-section row's stripped
cell texts contain the `"MP"` marker, the result is likewise `none`. Both
are ordinary `Option` outcomes of a total function, so nothing is
raised. -/
theorem team_stats_not_found :
    (∀ soup team,
      find_element_in_soup soup (strL "div") (teamDivId team) = none →
      scrape_team_basic_stats soup team = none) ∧
    (∀ soup team container table,
      find_element_in_soup soup (strL "div") (teamDivId team) = some container →
      findForest (strL "table") (teamTableId team) container.childrenF =
        some table →
      (∀ row ∈ theadRows table, strL "MP" ∉ cellTexts row) →
      scrape_team_basic_stats soup team = none) := by
  constructor
  · intro soup team h
    unfold scrape_team_basic_stats
    rw [h]
  · intro soup team container table h1 h2 h3
    have hnone : selectStatsHeaders table = none := by
      unfold selectStatsHeaders
      rw [List.findSome?_eq_none_iff]
      intro row hrow
      rw [if_neg (h3 row hrow)]
    simp [scrape_team_basic_stats, h1, h2, hnone]

theorem team_stats_not_found_witness :
    scrape_team_basic_stats Forest.nil (strL "AAA") = none :=
  team_stats_not_found.1 Forest.nil (strL "AAA") rfl

/-- Claim C7: whenever Team-Stats extraction succeeds, every returned
record has exactly as many fields as the selected header row — shorter
body rows having been right-padded with `none` rather than dropped, and a
body row longer than the header making the whole call fail (the modelled
pandas `ValueError`) instead of being silently truncated. -/
theorem team_stats_column_invariant :
    ∀ soup team hs recs,
      scrape_team_basic_stats soup team = some (hs, recs) →
      ∀ r ∈ recs, r.length = hs.length := by
  intro soup team hs recs h
  unfold scrape_team_basic_stats at h
  split at h
  · cases h
  · split at h
    · cases h
    · split at h
      · cases h
      · split at h
        · cases h
        · obtain ⟨heq, _, hlen⟩ := pdDataFrame_eq_some h
          subst heq
          exact hlen

theorem team_stats_column_invariant_witness :
    ([some (strL "Bob"), some (strL "12"), none] : List (Option Str)).length =
      ([strL "Starters", strL "MP", strL "PTS"] : List Str).length :=
  team_stats_column_invariant statsDemoDoc (strL "AAA")
    [strL "Starters", strL "MP", strL "PTS"]
    [[some (strL "Alice"), some (strL "30"), some (strL "20")],
     [some (strL "Bob"), some (strL "12"), none]]
    rfl
    [some (strL "Bob"), some (strL "12"), none]
    (by decide)

/-- Claim C3 (refuting evaluation): on a line score whose second header
row's first cell is the non-breaking space, the extractor returns the
empty string as that column label, not `"Team"`: `get_text().strip()`
removes U+00A0 (Python treats it as whitespace), so the subsequent
comparison of the stripped text against the one-character `"\xa0"` string
can never match and the rename never fires — for blank cells it does not
fire either. -/
theorem line_score_nbsp_header_not_renamed :
    scrape_line_score lineScoreNbspDoc =
      some ([[], strL "T"],
        [[some (strL "AAA"), some (strL "100")],
         [some (strL "BBB"), some (strL "90")]]) := rfl

/-- Claim C4 (counterexample): the Line-Score Extractor happily returns a
single-row result — here a well-formed line-score table with exactly one
body row yields a non-`none` result of length 1, contradicting the claimed
"0 or at least 2 rows" invariant. -/
theorem line_score_single_row_counterexample :
    (scrape_line_score lineScoreOneRowDoc).map (fun p => p.2.length) =
      some 1 := rfl

/-- Claim C4 (amended): the extractor guarantees only that a successful
result has a non-empty header list and at least one row; the two-row check
is performed by the caller, not the extractor. -/
theorem line_score_rows_lower_bound :
    ∀ soup hs rows, scrape_line_score soup = some (hs, rows) →
      hs ≠ [] ∧ 1 ≤ rows.length := by
  intro soup hs rows h
  unfold scrape_line_score at h
  cases hfind : find_element_in_soup soup (strL "table") (strL "line_score") with
  | none => rw [hfind] at h; cases h
  | some table =>
    rw [hfind] at h
    dsimp only at h
    by_cases hcond : lineScoreHeaders table = [] ∨
        (tbodyRowsAll table).map cellTexts = []
    · rw [if_pos hcond] at h; cases h
    · rw [if_neg hcond] at h
      obtain ⟨heq, hrows, _⟩ := pdDataFrame_eq_some h
      push_neg at hcond
      subst heq
      refine ⟨hcond.1, ?_⟩
      rw [hrows]
      simp only [List.length_map]
      cases hmap : (tbodyRowsAll table).map cellTexts with
      | nil => exact absurd hmap hcond.2
      | cons a l =>
        have hlen := congrArg List.length hmap
        simp only [List.length_map, List.length_cons] at hlen
        omega

theorem line_score_rows_lower_bound_witness :
    ([strL "Team", strL "T"] : List Str) ≠ [] ∧
      1 ≤ ([[some (strL "AAA"), some (strL "100")]] :
        List (List (Option Str))).length :=
  line_score_rows_lower_bound lineScoreOneRowDoc [strL "Team", strL "T"]
    [[some (strL "AAA"), some (strL "100")]] rfl

/-! ## Claims C1, C2 -/

/-- Claim C1 (the source's Top Scorers section cannot produce a result):
with any non-empty combined player list — here two players with numeric
points — the section combines, coerces and sorts, and then raises
`NameError`, because line 515 of the source reads
`sorted_players_top_scorers` while line 513 bound the sorted frame as
`sorted_players_df_top_scorers`; no cutoff at the 5th-ranked points value
is ever applied. -/
theorem top_scorers_name_error :
    topScorersCode
      [TSRec.mk (strL "Alice") (strL "30") (strL "AAA"),
       TSRec.mk (strL "Bob") (strL "25") (strL "BBB")] =
      Except.error nameErrorMsg := rfl

/-- Claim C2 (refuting evaluation): team 2's composite game scores never
reach the comparison. With Alice (team 1, game score 10.0) and Bob
(team 2, game score 25.5), the code selects Alice: line 543 of the source
replaces team 2's seven-column projection with the three-column
top-scorers frame, so Bob's `GmSc` is NaN after `pd.concat` and becomes 0
under `fillna(0)`, and his rebounds/assists/steals/blocks are NaN in the
displayed projection. The claimed selection by maximum composite score
would pick Bob. -/
theorem pog_team2_score_zeroed :
    pogCode pogT1Demo pogT2Demo =
      Except.ok (some (PogEntry.mk (strL "Alice") (10 : Rat)
        (some (strL "5")) (some (strL "3")) (some (strL "1"))
        (some (strL "0")) (some (strL "20")))) := rfl
